import Mathlib

/- Verification of the FAISS-backed vector store (src/vector_store.py) and of
   the PDF RAG pipeline orchestrator (pdf_rag_pipeline.py).

   Modelling conventions:
   * float32 values are idealised as real numbers;
   * a 2-d numpy array of embeddings is a list of rows; its rectangularity
     appears as the condition that all rows share one width;
   * the FAISS `IndexFlatIP` is the list of stored rows together with the
     dimension it was created for; `index.add` / `index.search` carry faiss's
     `assert d == self.d`; a search returns exactly `k` result slots, the
     slots beyond `ntotal` padded with label `-1` and the neutral
     inner-product score (float32 `-HUGE_VALF`);
   * Python exceptions are `Except.error` carrying a message; the files
     written by `faiss.write_index` and `pickle.dump` are two name-indexed
     maps forming the modelled file system.

   The modules `src/embeddings.py`, `src/llm.py`, `src/document_processor.py`
   and `config/config.py` are not among the sources; following the spec's
   adapter contracts, the embedding generator, the answer generator and the
   PDF chunker are black-box functions passed as parameters, and the
   configured vector dimension is a field fixed when a store is built. -/

/-- Sum of squares of a row: the square of the L2 norm computed by
`np.linalg.norm` (and by faiss when normalising). -/
def normSq (v : List ℝ) : ℝ := (v.map fun x => x * x).sum

/-- Row normalisation shared by `add_embeddings` (src/src/vector_store.py
lines 38-46) and `search` (lines 71-78): a row with non-zero norm is divided
componentwise by its L2 norm; a zero-norm row is left unscaled. Both the
`faiss.normalize_L2` path and the manual numpy fallback in each method behave
this way, so one function models all four paths. -/
noncomputable def normalizeRow (v : List ℝ) : List ℝ :=
  if normSq v = 0 then v else v.map fun x => x / Real.sqrt (normSq v)

/-- Inner product of two rows: the `IndexFlatIP` similarity score. -/
def dot (a b : List ℝ) : ℝ := (List.zipWith (fun x y => x * y) a b).sum

/-- Score each stored row against the (already normalised) query, pairing the
score with the row's insertion position, starting at position `i`. -/
def scoresFrom (q : List ℝ) (i : ℤ) : List (List ℝ) → List (ℝ × ℤ)
  | [] => []
  | v :: rest => (dot q v, i) :: scoresFrom q (i + 1) rest

/-- Insert one scored entry into a list sorted by descending score, after all
entries with a score greater than or equal to its own; used by `sortDesc`,
this realises the descending order with insertion-position tie-break. -/
noncomputable def insertDesc (p : ℝ × ℤ) : List (ℝ × ℤ) → List (ℝ × ℤ)
  | [] => [p]
  | q :: rest => if q.1 ≤ p.1 then p :: q :: rest else q :: insertDesc p rest

/-- Sort scored entries by descending score, equal scores keeping insertion
order (the spec fixes this tie-break for determinism). -/
noncomputable def sortDesc : List (ℝ × ℤ) → List (ℝ × ℤ)
  | [] => []
  | p :: rest => insertDesc p (sortDesc rest)

/-- Stands in for the float32 value `-HUGE_VALF` that faiss places in the
unfilled result slots of an inner-product search; IEEE negative infinity has
no counterpart in `ℝ`, and no settled statement depends on the value. -/
noncomputable def NEG_HUGE : ℝ := -(2 : ℝ) ^ 128

/-- One FAISS `IndexFlatIP`: its construction dimension and the stored rows
in insertion order (`ntotal` is the length of `vectors`). -/
structure IndexData where
  dim : ℕ
  vectors : List (List ℝ)

/-- Result of `faiss.IndexFlatIP.search` for one query row: exactly `k`
slots; the top `min(k, ntotal)` stored positions sorted by descending inner
product with the normalised query, then `k - ntotal` padding slots carrying
label `-1` and the neutral score. -/
noncomputable def searchIP (idx : IndexData) (q : List ℝ) (k : ℕ) : List (ℝ × ℤ) :=
  let qn := normalizeRow q
  (sortDesc (scoresFrom qn 0 idx.vectors)).take k
    ++ List.replicate (k - idx.vectors.length) (NEG_HUGE, -1)

/-- Python list subscription by a possibly negative index, as in
`self.texts[idx]`: a negative index counts from the end of the list. (The
only negative index reaching it in the source is faiss's padding label `-1`,
and only when at least one text is stored, so the out-of-range default is
never consulted in the settled claims.) -/
def pyGetStr (l : List String) (i : ℤ) : String :=
  if 0 ≤ i then l.getD i.toNat "" else l.getD (l.length - (-i).toNat) ""

/-- The `FAISSVectorStore` object: the configured dimension (read from the
absent `config` module at construction), the optional FAISS index, and the
parallel list of stored texts. -/
structure Store where
  dimension : ℕ
  index : Option IndexData
  texts : List String

/-- Dimension the next `index.add` is checked against: the dimension of the
existing index, or (through `create_index`) the configured dimension. -/
def effDim (s : Store) : ℕ :=
  match s.index with
  | none => s.dimension
  | some i => i.dim

/-- Rows currently stored in the FAISS index (empty when no index exists). -/
def curVectors (s : Store) : List (List ℝ) :=
  match s.index with
  | none => []
  | some i => i.vectors

/-- `FAISSVectorStore.add_embeddings` (src/src/vector_store.py lines 24-52):
create the index when absent, normalise every row, then `self.index.add`,
whose wrapper asserts the row width equals the index dimension and otherwise
raises before anything is stored; on success append the rows and extend the
text list. No comparison between the number of rows and the number of texts
is performed anywhere in the method. -/
noncomputable def addEmbeddings (s : Store) (embs : List (List ℝ)) (texts : List String) :
    Except String Store :=
  if ∀ v ∈ embs, v.length = effDim s then
    .ok { s with
          index := some ⟨effDim s, curVectors s ++ embs.map normalizeRow⟩,
          texts := s.texts ++ texts }
  else .error "AssertionError: d == self.d"

/-- `FAISSVectorStore.search` (src/src/vector_store.py lines 54-87): return
`([], [])` when no index exists or it is empty; otherwise normalise the
query, run the FAISS search (whose wrapper asserts the query width and
`k > 0`), keep each returned label `idx` satisfying `idx < len(self.texts)`
— a test the padding label `-1` also passes — resolving it by Python list
subscription, and return all `k` scores unfiltered. -/
noncomputable def storeSearch (s : Store) (q : List ℝ) (k : ℕ) :
    Except String (List String × List ℝ) :=
  match s.index with
  | none => .ok ([], [])
  | some idx =>
    if idx.vectors.length = 0 then .ok ([], [])
    else if q.length = idx.dim ∧ 0 < k then
      let res := searchIP idx q k
      .ok (res.filterMap fun p =>
             if p.2 < (s.texts.length : ℤ) then some (pyGetStr s.texts p.2) else none,
           res.map Prod.fst)
    else .error "AssertionError: faiss search preconditions"

/-- The two persisted artifacts, keyed by file name: the serialised FAISS
index written by `faiss.write_index` and the pickled text list. -/
structure FS where
  indexFiles : String → Option IndexData
  textFiles : String → Option (List String)

/-- `FAISSVectorStore.save_index` (src/src/vector_store.py lines 89-103):
write the index to `{filepath}.index` and the texts to
`{filepath}_texts.pkl`; `faiss.write_index(None, ...)` raises when no index
exists. -/
def saveIndex (s : Store) (path : String) (fs : FS) : Except String FS :=
  match s.index with
  | none => .error "TypeError: write_index on None"
  | some idx =>
      .ok { indexFiles := fun n => if n = path ++ ".index" then some idx else fs.indexFiles n,
            textFiles := fun n => if n = path ++ "_texts.pkl" then some s.texts else fs.textFiles n }

/-- `FAISSVectorStore.load_index` (src/src/vector_store.py lines 105-131):
when either artifact is missing return `false` leaving the store unchanged;
when both exist install them as the new index and text list and return
`true`. The method compares nothing about the two artifacts after loading.
-/
def loadIndex (s : Store) (path : String) (fs : FS) : Bool × Store :=
  match fs.indexFiles (path ++ ".index"), fs.textFiles (path ++ "_texts.pkl") with
  | some idx, some ts => (true, { s with index := some idx, texts := ts })
  | _, _ => (false, s)

/-- `FAISSVectorStore.get_stats`: the total-texts entry is present only when
an index exists, mirroring the two dictionary shapes in the source. -/
def getStats (s : Store) : ℕ × ℕ × Option ℕ :=
  match s.index with
  | none => (0, s.dimension, none)
  | some i => (i.vectors.length, s.dimension, some s.texts.length)

/-- Raw PDF bytes (the content of one uploaded document). -/
abbrev PdfContent := List ℕ

/-- The `PDFRAGPipeline` object: its vector store and the `is_indexed`
flag gating queries (the adapters it holds are passed as parameters to the
operations that use them). -/
structure Pipeline where
  store : Store
  is_indexed : Bool

/-- Ingestion statistics dictionary returned by
`PDFRAGPipeline.ingest_pdf_documents`. -/
structure IngestStats where
  total_documents : ℕ
  total_chunks : ℕ
  total_embeddings : ℕ
  vector_store_stats : ℕ × ℕ × Option ℕ

/-- `PDFRAGPipeline.ingest_pdf_documents` (pdf_rag_pipeline.py lines 26-71):
chunk every document through the PDF-processor adapter, concatenate the
chunks, run the embedding adapter once on the whole batch, add the result to
the vector store, save the index under the fixed name, set `is_indexed` to
`True`, and return the counts. There is no special case for an empty batch
and no comparison between the embedding count and the chunk count. -/
noncomputable def ingestPdfDocuments (processPdf : PdfContent → List String)
    (gen : List String → List (List ℝ)) (p : Pipeline) (fs : FS)
    (docs : List PdfContent) : Except String (IngestStats × Pipeline × FS) :=
  let allChunks := (docs.map processPdf).flatten
  let embeddings := gen allChunks
  match addEmbeddings p.store embeddings allChunks with
  | .error e => .error e
  | .ok store1 =>
    match saveIndex store1 "pdf_faiss_index" fs with
    | .error e => .error e
    | .ok fs1 =>
        .ok ({ total_documents := docs.length,
               total_chunks := allChunks.length,
               total_embeddings := embeddings.length,
               vector_store_stats := getStats store1 },
             { store := store1, is_indexed := true }, fs1)

/-- Result dictionary returned by `PDFRAGPipeline.query`; the keys absent
from some branches of the source are optional fields. -/
structure QueryResult where
  response : String
  context : List String
  similarity_scores : List ℝ
  error : Option String
  num_context_chunks : Option ℕ

/-- The structured dictionary `query` returns while nothing is indexed
(pdf_rag_pipeline.py lines 84-90). -/
def notIndexedResult : QueryResult :=
  { response := "Error: No PDF documents have been indexed yet. Please ingest PDF documents first.",
    context := [], similarity_scores := [], error := some "No index available",
    num_context_chunks := none }

/-- The structured dictionary `query` returns when the search yields no
texts (pdf_rag_pipeline.py lines 101-107). -/
def noContextResult : QueryResult :=
  { response := "I couldn't find any relevant information in the PDF documents to answer your question.",
    context := [], similarity_scores := [], error := some "No relevant context found",
    num_context_chunks := none }

/-- `PDFRAGPipeline.query` (pdf_rag_pipeline.py lines 73-124): when not
indexed return the structured not-indexed dictionary before any adapter is
invoked; otherwise embed the question, search the store, return the
no-context dictionary on an empty hit list, and otherwise assemble the
answer from the LLM adapter together with the retrieved texts, their scores
and their count. -/
noncomputable def queryPipeline (embedOne : String → List ℝ)
    (llm : String → List String → String) (p : Pipeline) (question : String)
    (k : ℕ) : Except String QueryResult :=
  if p.is_indexed then
    match storeSearch p.store (embedOne question) k with
    | .error e => .error e
    | .ok (texts, scores) =>
      if texts.isEmpty then .ok noContextResult
      else .ok { response := llm question texts, context := texts,
                 similarity_scores := scores, error := none,
                 num_context_chunks := some texts.length }
  else .ok notIndexedResult

/-- `PDFRAGPipeline.reset_pipeline` (pdf_rag_pipeline.py lines 126-131):
replace the store by a freshly constructed one and clear the flag. -/
def resetPipeline (p : Pipeline) : Pipeline :=
  { store := { dimension := p.store.dimension, index := none, texts := [] },
    is_indexed := false }

/-- Projection of an ingestion outcome onto the externally reported facts:
document count, chunk count, embedding count and the resulting flag. -/
noncomputable def ingestOutcome (r : Except String (IngestStats × Pipeline × FS)) :
    Option (ℕ × ℕ × ℕ × Bool) :=
  match r with
  | .ok (st, p, _) =>
      some (st.total_documents, st.total_chunks, st.total_embeddings, p.is_indexed)
  | .error _ => none

/-- Projection of an ingestion outcome onto the resulting store's stored-row
count and stored-text count. -/
noncomputable def ingestStoreCounts (r : Except String (IngestStats × Pipeline × FS)) :
    Option (ℕ × ℕ) :=
  match r with
  | .ok (_, p, _) => some ((curVectors p.store).length, p.store.texts.length)
  | .error _ => none

/-- An empty modelled file system. -/
def emptyFS : FS := { indexFiles := fun _ => none, textFiles := fun _ => none }

/-- A concrete populated store used in closed statements: two unit rows with
their two texts, as after a real ingestion of two chunks. -/
def s1 : Store := ⟨2, some ⟨2, [[(1:ℝ), 0], [0, 1]]⟩, ["a", "b"]⟩

/-- The file system produced by saving the one-row store
`⟨1, some ⟨1, [[2]]⟩, ["t"]⟩` under the name `"p"` into `emptyFS`. -/
def fsP : FS :=
  { indexFiles := fun n => if n = "p" ++ ".index" then some ⟨1, [[(2:ℝ)]]⟩
      else emptyFS.indexFiles n,
    textFiles := fun n => if n = "p" ++ "_texts.pkl" then some ["t"]
      else emptyFS.textFiles n }

/-- A pair of persisted artifacts that disagree about the size: the index
file holds one row while the pickled text list holds two texts. -/
def fsBad : FS :=
  { indexFiles := fun n => if n = "p" ++ ".index" then some ⟨1, [[(1:ℝ)]]⟩
      else none,
    textFiles := fun n => if n = "p" ++ "_texts.pkl" then some ["a", "b"]
      else none }

lemma normSq_nil : normSq [] = 0 := by simp [normSq]

lemma normSq_cons (x : ℝ) (xs : List ℝ) : normSq (x :: xs) = x * x + normSq xs := by
  simp [normSq]

lemma normSq_nonneg (v : List ℝ) : 0 ≤ normSq v := by
  induction v with
  | nil => simp [normSq_nil]
  | cons x xs ih =>
      rw [normSq_cons]
      have := mul_self_nonneg x
      linarith

lemma normSq_map_div (v : List ℝ) (c : ℝ) :
    normSq (v.map fun x => x / c) = normSq v / (c * c) := by
  induction v with
  | nil => simp [normSq_nil]
  | cons x xs ih =>
      rw [List.map_cons, normSq_cons, normSq_cons, ih, div_mul_div_comm,
        div_add_div_same]

lemma normalizeRow_zero (v : List ℝ) (h : normSq v = 0) : normalizeRow v = v := by
  simp [normalizeRow, h]

lemma normalizeRow_unit (v : List ℝ) (h : normSq v ≠ 0) :
    normSq (normalizeRow v) = 1 := by
  rw [normalizeRow, if_neg h, normSq_map_div, Real.mul_self_sqrt (normSq_nonneg v),
    div_self h]

/-- C7: `search` on an index holding zero vectors, or on a store whose index
was never created, returns the empty result pair for every query and every
`k`, and raises nothing (the early return at src/src/vector_store.py lines
65-66 fires before any FAISS call). -/
theorem search_empty_index_returns_empty (s : Store) (q : List ℝ) (k : ℕ)
    (h : curVectors s = []) : storeSearch s q k = .ok ([], []) := by
  unfold storeSearch
  cases hs : s.index with
  | none => rfl
  | some idx =>
      have hv : idx.vectors = [] := by simpa [curVectors, hs] using h
      simp [hv]

/-- Closed evaluation of `search_empty_index_returns_empty` on a store with
no index and on a store whose index holds zero vectors. -/
theorem search_empty_index_returns_empty_witness :
    curVectors ⟨4, none, []⟩ = [] ∧
    storeSearch ⟨4, none, []⟩ [1, 2] 7 = .ok ([], []) ∧
    curVectors ⟨4, some ⟨4, []⟩, []⟩ = [] ∧
    storeSearch ⟨4, some ⟨4, []⟩, []⟩ [1, 2] 7 = .ok ([], []) :=
  ⟨rfl, search_empty_index_returns_empty _ _ _ rfl, rfl,
    search_empty_index_returns_empty _ _ _ rfl⟩

/-- C8: `query` on a pipeline whose `is_indexed` flag is false returns the
structured not-indexed dictionary for every question and every `k`, whatever
the embedding and answer adapters are (so neither adapter nor the search can
be invoked, and nothing is raised); and a freshly reset pipeline is in that
state. -/
theorem query_not_indexed_returns_structured_result
    (embedOne : String → List ℝ) (llm : String → List String → String)
    (p : Pipeline) (question : String) (k : ℕ) (h : p.is_indexed = false) :
    queryPipeline embedOne llm p question k = .ok notIndexedResult ∧
    (resetPipeline p).is_indexed = false := by
  refine ⟨?_, rfl⟩
  unfold queryPipeline
  rw [h]
  simp

/-- Closed evaluation of `query_not_indexed_returns_structured_result` on a
freshly reset pipeline, with concrete adapters that would be detectable had
they been called. -/
theorem query_not_indexed_returns_structured_result_witness :
    (resetPipeline ⟨s1, true⟩).is_indexed = false ∧
    queryPipeline (fun _ => [1, 0]) (fun _ _ => "answer")
      (resetPipeline ⟨s1, true⟩) "What is X?" 5 = .ok notIndexedResult :=
  ⟨rfl, (query_not_indexed_returns_structured_result _ _ _ _ _ rfl).1⟩

/-- C9: whenever `add_embeddings` succeeds, the rows appended to the index
are exactly the `normalizeRow` images of the input rows, and the shared
normalisation (also applied to the query in `search`) divides by no zero
norm: a zero-norm row passes through unscaled and any other row comes out
with unit squared L2 norm. -/
theorem add_normalizes_rows (s : Store) (embs : List (List ℝ))
    (texts : List String) (s' : Store)
    (h : addEmbeddings s embs texts = .ok s') :
    curVectors s' = curVectors s ++ embs.map normalizeRow ∧
    ∀ v : List ℝ, (normSq v = 0 → normalizeRow v = v) ∧
      (normSq v ≠ 0 → normSq (normalizeRow v) = 1) := by
  refine ⟨?_, fun v => ⟨normalizeRow_zero v, normalizeRow_unit v⟩⟩
  unfold addEmbeddings at h
  by_cases hc : ∀ v ∈ embs, v.length = effDim s
  · rw [if_pos hc] at h
    cases h
    simp [curVectors]
  · rw [if_neg hc] at h
    cases h

/-- Closed evaluation of `add_normalizes_rows` on a concrete successful
`add_embeddings` call: the row `[3, 4]` has non-zero norm and is stored with
unit squared norm, and the zero row passes through normalisation unchanged.
-/
theorem add_normalizes_rows_witness :
    normSq [(3:ℝ), 4] ≠ 0 ∧ normSq (normalizeRow [(3:ℝ), 4]) = 1 ∧
    normSq [(0:ℝ), 0] = 0 ∧ normalizeRow [(0:ℝ), 0] = [0, 0] := by
  have h : addEmbeddings ⟨2, none, []⟩ [[(3:ℝ), 4]] ["a"] =
      .ok ⟨2, some ⟨2, [normalizeRow [(3:ℝ), 4]]⟩, ["a"]⟩ := by
    unfold addEmbeddings
    rw [if_pos (by simp [effDim])]
    simp [effDim, curVectors]
  have hmain := add_normalizes_rows _ _ _ _ h
  have hn : normSq [(3:ℝ), 4] ≠ 0 := by norm_num [normSq]
  have hz : normSq [(0:ℝ), 0] = 0 := by norm_num [normSq]
  exact ⟨hn, (hmain.2 [(3:ℝ), 4]).2 hn, hz, (hmain.2 [(0:ℝ), 0]).1 hz⟩

/-- C2 counterexample: `add_embeddings` called with one vector of the right
width but two texts does not fail — it returns the updated store, which now
holds one vector against two texts, so the claimed count check does not
exist in the code. -/
theorem add_embeddings_count_mismatch_accepted :
    addEmbeddings ⟨1, none, []⟩ [[(2:ℝ)]] ["a", "b"] =
      .ok ⟨1, some ⟨1, [normalizeRow [(2:ℝ)]]⟩, ["a", "b"]⟩ := by
  unfold addEmbeddings
  rw [if_pos (by simp [effDim])]
  simp [effDim, curVectors]

/-- C2 amended: only a row-width mismatch makes `add_embeddings` fail — the
underlying `index.add` assertion fires before anything is stored, so a
failing call changes nothing; a vectors/texts count mismatch is not checked
at all, and the call appends `len(vectors)` rows and `len(texts)` texts
whatever the two counts are. -/
theorem add_embeddings_dimension_check_only (s : Store) (embs : List (List ℝ))
    (texts : List String) :
    ((∃ w, (∀ v ∈ embs, v.length = w) ∧ w ≠ effDim s ∧ embs ≠ []) →
        addEmbeddings s embs texts = .error "AssertionError: d == self.d") ∧
    ((∀ v ∈ embs, v.length = effDim s) →
        ∃ s', addEmbeddings s embs texts = .ok s' ∧
          (curVectors s').length = (curVectors s).length + embs.length ∧
          s'.texts.length = s.texts.length + texts.length) := by
  constructor
  · rintro ⟨w, hw, hne, hembs⟩
    unfold addEmbeddings
    rw [if_neg]
    intro hall
    obtain ⟨v, hv⟩ := List.exists_mem_of_ne_nil embs hembs
    exact hne ((hw v hv).symm.trans (hall v hv))
  · intro hall
    refine ⟨{ s with
        index := some ⟨effDim s, curVectors s ++ embs.map normalizeRow⟩,
        texts := s.texts ++ texts }, ?_, ?_, ?_⟩
    · unfold addEmbeddings
      rw [if_pos hall]
    · simp [curVectors]
    · simp

/-- Closed evaluation of `add_embeddings_dimension_check_only`: a width-1 row
against a width-2 store raises and stores nothing, while a width-2 row with
one text succeeds and appends exactly one row and one text. -/
theorem add_embeddings_dimension_check_only_witness :
    addEmbeddings ⟨2, none, []⟩ [[(1:ℝ)]] [] =
      .error "AssertionError: d == self.d" ∧
    (∃ s', addEmbeddings ⟨2, none, []⟩ [[(1:ℝ), 2]] ["a"] = .ok s' ∧
      (curVectors s').length = 0 + 1 ∧ s'.texts.length = 0 + 1) := by
  constructor
  · exact (add_embeddings_dimension_check_only _ _ _).1
      ⟨1, by simp, by simp [effDim], by simp⟩
  · exact (add_embeddings_dimension_check_only _ _ _).2 (by simp [effDim])

/-- C5 counterexample: `load_index` applied to a file system whose two
artifacts are inconsistent — one stored row against two stored texts —
returns the success flag and installs the inconsistent pair; no size
consistency check and no corrupt-index error exist in the code. -/
theorem load_index_accepts_inconsistent_artifacts :
    (loadIndex ⟨1, none, []⟩ "p" fsBad).1 = true ∧
    (curVectors (loadIndex ⟨1, none, []⟩ "p" fsBad).2).length = 1 ∧
    (loadIndex ⟨1, none, []⟩ "p" fsBad).2.texts.length = 2 := by
  refine ⟨?_, ?_, ?_⟩ <;> simp [loadIndex, fsBad, curVectors, emptyFS]

/-- C5 amended: when both persisted artifacts exist, `load_index`
reconstructs the in-memory index from them and reports success
unconditionally — it performs no comparison between the number of loaded
vectors and the number of loaded texts, so an inconsistent pair is accepted
rather than rejected; a failure during loading only produces the
not-loaded signal `false`, never a raised corrupt-index error. -/
theorem load_index_no_consistency_check (s : Store) (path : String) (fs : FS)
    (idx : IndexData) (ts : List String)
    (h1 : fs.indexFiles (path ++ ".index") = some idx)
    (h2 : fs.textFiles (path ++ "_texts.pkl") = some ts) :
    loadIndex s path fs = (true, { s with index := some idx, texts := ts }) := by
  unfold loadIndex
  rw [h1, h2]

/-- Closed evaluation of `load_index_no_consistency_check` at the
inconsistent artifact pair: the load succeeds and installs one row against
two texts. -/
theorem load_index_no_consistency_check_witness :
    fsBad.indexFiles ("p" ++ ".index") = some ⟨1, [[(1:ℝ)]]⟩ ∧
    fsBad.textFiles ("p" ++ "_texts.pkl") = some ["a", "b"] ∧
    loadIndex ⟨3, none, []⟩ "p" fsBad =
      (true, ⟨3, some ⟨1, [[(1:ℝ)]]⟩, ["a", "b"]⟩) :=
  ⟨rfl, rfl, load_index_no_consistency_check _ _ _ _ _ rfl rfl⟩

/-- C6: saving a store and loading the saved artifacts into a fresh store
reproduces the index — same rows (the post-normalisation values, exactly,
in the idealised model) in the same order under the same dimension — and the
same texts in the same order; sizes therefore agree as well. -/
theorem save_load_roundtrip (s : Store) (path : String) (fs fs' : FS)
    (h : saveIndex s path fs = .ok fs') (fresh : Store) :
    (loadIndex fresh path fs').1 = true ∧
    (loadIndex fresh path fs').2.index = s.index ∧
    (loadIndex fresh path fs').2.texts = s.texts := by
  unfold saveIndex at h
  cases hs : s.index with
  | none => rw [hs] at h; cases h
  | some idx =>
      rw [hs] at h
      cases h
      unfold loadIndex
      simp

/-- Closed evaluation of `save_load_roundtrip`: the store holding the row
`[2]` and the text `"t"` is saved under `"p"`, and a fresh empty store loads
back exactly that index and that text list. -/
theorem save_load_roundtrip_witness :
    (loadIndex ⟨1, none, []⟩ "p" fsP).1 = true ∧
    (loadIndex ⟨1, none, []⟩ "p" fsP).2.index = some ⟨1, [[(2:ℝ)]]⟩ ∧
    (loadIndex ⟨1, none, []⟩ "p" fsP).2.texts = ["t"] := by
  have h : saveIndex ⟨1, some ⟨1, [[(2:ℝ)]]⟩, ["t"]⟩ "p" emptyFS = .ok fsP := rfl
  exact save_load_roundtrip ⟨1, some ⟨1, [[(2:ℝ)]]⟩, ["t"]⟩ "p" emptyFS fsP h _

/-- C3 counterexample: ingesting one document from which no chunk is
extracted (the embedding adapter, honouring its 1:1 contract, returns no
vectors) succeeds with zero chunk and embedding counts — but the resulting
pipeline has `is_indexed = true`, because line 63 of pdf_rag_pipeline.py
sets the flag unconditionally; the pipeline does not stay in the Empty
state. -/
theorem ingest_empty_batch_sets_indexed :
    ingestOutcome (ingestPdfDocuments (fun _ => []) (fun _ => [])
      ⟨⟨2, none, []⟩, false⟩ emptyFS [[0]]) = some (1, 0, 0, true) := by
  rfl

/-- C3 amended: an ingestion call whose accumulated chunk batch is empty
reports zero chunk and embedding counts and raises no error, but it does not
leave the pipeline in the Empty state — every successful ingestion, even one
adding no chunks, sets `is_indexed` to `true`. -/
theorem ingest_empty_batch_reports_zero_but_indexed
    (processPdf : PdfContent → List String) (gen : List String → List (List ℝ))
    (p : Pipeline) (fs : FS) (docs : List PdfContent)
    (hchunks : (docs.map processPdf).flatten = ([] : List String))
    (hgen : gen [] = []) :
    ingestOutcome (ingestPdfDocuments processPdf gen p fs docs) =
      some (docs.length, 0, 0, true) := by
  unfold ingestPdfDocuments
  dsimp only
  rw [hchunks, hgen]
  have hadd : addEmbeddings p.store [] [] =
      .ok { p.store with
            index := some ⟨effDim p.store, curVectors p.store⟩,
            texts := p.store.texts } := by
    unfold addEmbeddings
    rw [if_pos (by simp)]
    simp
  rw [hadd]
  unfold saveIndex
  simp [ingestOutcome]

/-- Closed evaluation of `ingest_empty_batch_reports_zero_but_indexed` on two
documents that both chunk to nothing, against a pipeline that already holds
an index. -/
theorem ingest_empty_batch_reports_zero_but_indexed_witness :
    ([[0], [1]].map (fun _ => ([] : List String))).flatten = ([] : List String) ∧
    ingestOutcome (ingestPdfDocuments (fun _ => []) (fun _ => [])
      ⟨s1, true⟩ emptyFS [[0], [1]]) = some (2, 0, 0, true) :=
  ⟨rfl, ingest_empty_batch_reports_zero_but_indexed _ _ _ _ _ rfl rfl⟩

/-- C4 counterexample: an embedding adapter that returns two vectors for a
single chunk violates its contract, yet ingestion succeeds — the mismatched
batch is inserted, leaving two stored rows against one stored text, and the
reported counts show `total_chunks = 1` next to `total_embeddings = 2`; no
contract check and no fatal error exist in the pipeline code. -/
theorem ingest_adapter_mismatch_accepted :
    ingestOutcome (ingestPdfDocuments (fun _ => ["c"])
      (fun _ => [[(1:ℝ), 0], [0, 1]]) ⟨⟨2, none, []⟩, false⟩ emptyFS [[0]]) =
      some (1, 1, 2, true) ∧
    ingestStoreCounts (ingestPdfDocuments (fun _ => ["c"])
      (fun _ => [[(1:ℝ), 0], [0, 1]]) ⟨⟨2, none, []⟩, false⟩ emptyFS [[0]]) =
      some (2, 1) := by
  exact ⟨rfl, rfl⟩

/-- C4 amended: the pipeline performs no comparison between the number of
vectors returned by the embedding adapter and the number of chunks in the
batch; whenever the returned rows pass the width assertion, the mismatched
batch is inserted as-is — the store gains `len(embeddings)` rows and
`len(chunks)` texts — and the call returns the mismatched counts as a
success. -/
theorem ingest_no_count_check (processPdf : PdfContent → List String)
    (gen : List String → List (List ℝ)) (p : Pipeline) (fs : FS)
    (docs : List PdfContent)
    (hdim : ∀ v ∈ gen ((docs.map processPdf).flatten), v.length = effDim p.store)
    (_hmismatch : (gen ((docs.map processPdf).flatten)).length ≠
      ((docs.map processPdf).flatten).length) :
    ingestOutcome (ingestPdfDocuments processPdf gen p fs docs) =
      some (docs.length, ((docs.map processPdf).flatten).length,
        (gen ((docs.map processPdf).flatten)).length, true) ∧
    ingestStoreCounts (ingestPdfDocuments processPdf gen p fs docs) =
      some ((curVectors p.store).length +
              (gen ((docs.map processPdf).flatten)).length,
            p.store.texts.length + ((docs.map processPdf).flatten).length) := by
  unfold ingestPdfDocuments
  have hadd : addEmbeddings p.store (gen ((docs.map processPdf).flatten))
      ((docs.map processPdf).flatten) =
      .ok { p.store with
            index := some ⟨effDim p.store, curVectors p.store ++
              (gen ((docs.map processPdf).flatten)).map normalizeRow⟩,
            texts := p.store.texts ++ (docs.map processPdf).flatten } := by
    unfold addEmbeddings
    rw [if_pos hdim]
  dsimp only
  rw [hadd]
  unfold saveIndex
  simp [ingestOutcome, ingestStoreCounts, curVectors]

/-- Closed evaluation of `ingest_no_count_check`: three width-2 vectors come
back for two chunks and are nonetheless inserted, the store ending with
three rows and two texts. -/
theorem ingest_no_count_check_witness :
    ingestOutcome (ingestPdfDocuments (fun _ => ["c", "d"])
      (fun _ => [[(1:ℝ), 0], [0, 1], [1, 1]]) ⟨⟨2, none, []⟩, false⟩ emptyFS
      [[5]]) = some (1, 2, 3, true) ∧
    ingestStoreCounts (ingestPdfDocuments (fun _ => ["c", "d"])
      (fun _ => [[(1:ℝ), 0], [0, 1], [1, 1]]) ⟨⟨2, none, []⟩, false⟩ emptyFS
      [[5]]) = some (3, 2) := by
  have h := ingest_no_count_check (fun _ => ["c", "d"])
    (fun _ => [[(1:ℝ), 0], [0, 1], [1, 1]]) ⟨⟨2, none, []⟩, false⟩ emptyFS
    [[5]] (by simp [effDim]) (by simp)
  simpa [curVectors] using h

/-- C10: on a successful query - pipeline indexed, search successful with a
non-empty hit list - the returned dictionary's `num_context_chunks` equals
the length of its `context` list, and `context` and `similarity_scores` are
exactly the text list and score list the vector store's search produced for
the embedded question (pdf_rag_pipeline.py lines 100-124 pass them through
unchanged). -/
theorem query_result_fields_match_search (embedOne : String → List ℝ)
    (llm : String → List String → String) (p : Pipeline) (question : String)
    (k : ℕ) (texts : List String) (scores : List ℝ)
    (hIdx : p.is_indexed = true)
    (hS : storeSearch p.store (embedOne question) k = .ok (texts, scores))
    (hne : texts ≠ []) :
    queryPipeline embedOne llm p question k =
      .ok { response := llm question texts, context := texts,
            similarity_scores := scores, error := none,
            num_context_chunks := some texts.length } := by
  unfold queryPipeline
  rw [hIdx, hS]
  simp [hne]

/-- Closed evaluation of `query_result_fields_match_search` on a one-row
store: the search returns `(["a"], [1])` and the query dictionary carries
exactly those, with `num_context_chunks` equal to the context length. -/
theorem query_result_fields_match_search_witness :
    storeSearch ⟨1, some ⟨1, [[(1:ℝ)]]⟩, ["a"]⟩ [(1:ℝ)] 1 = .ok (["a"], [1]) ∧
    queryPipeline (fun _ => [(1:ℝ)]) (fun _ _ => "ans")
      ⟨⟨1, some ⟨1, [[(1:ℝ)]]⟩, ["a"]⟩, true⟩ "What is X?" 1 =
      .ok { response := "ans", context := ["a"], similarity_scores := [1],
            error := none, num_context_chunks := some 1 } := by
  have h1 : normSq [(1:ℝ)] = 1 := by norm_num [normSq]
  have hq : normalizeRow [(1:ℝ)] = [(1:ℝ)] := by
    rw [normalizeRow, if_neg (by rw [h1]; norm_num)]
    simp [h1]
  have hS : storeSearch ⟨1, some ⟨1, [[(1:ℝ)]]⟩, ["a"]⟩ [(1:ℝ)] 1 =
      .ok (["a"], [1]) := by
    unfold storeSearch searchIP
    rw [hq]
    norm_num [scoresFrom, dot, sortDesc, insertDesc, pyGetStr, List.getD,
      List.filterMap_cons, List.filterMap_nil]
  refine ⟨hS, ?_⟩
  have h := query_result_fields_match_search (fun _ => [(1:ℝ)]) (fun _ _ => "ans")
    ⟨⟨1, some ⟨1, [[(1:ℝ)]]⟩, ["a"]⟩, true⟩ "What is X?" 1 ["a"] [1] rfl hS
    (by simp)
  simpa using h

/-- C1 failing input: the store `s1` holds two stored vectors and two texts,
yet `search` with `k = 5` returns five texts and five scores, not
`min(5, 2) = 2` results. FAISS pads the three unfilled slots with label `-1`
and the neutral score; the source's guard `idx < len(self.texts)` lets `-1`
through, and Python list subscription resolves `-1` to the *last* stored
text, so the text `"b"` is repeated three times and the neutral scores are
reported as similarities. -/
theorem search_k_overflow_returns_padded_results :
    storeSearch s1 [(1:ℝ), 0] 5 =
      .ok (["a", "b", "b", "b", "b"], [1, 0, NEG_HUGE, NEG_HUGE, NEG_HUGE]) := by
  have h2 : normSq [(1:ℝ), 0] = 1 := by norm_num [normSq]
  have hq : normalizeRow [(1:ℝ), 0] = [1, 0] := by
    rw [normalizeRow, if_neg (by rw [h2]; norm_num)]
    simp [h2]
  unfold s1 storeSearch searchIP
  rw [hq]
  norm_num [scoresFrom, dot, sortDesc, insertDesc, pyGetStr, List.getD,
    List.filterMap_cons, List.filterMap_nil, List.replicate]
